import Mathlib

/-!
Verification of the payment-event reconciliation engine of the
resetnetworks streaming backend.

The definitions below are a shallow embedding of the JavaScript source:

* `handlePaymentSuccess` / `handlePaymentFailed` embed
  `PaymentService.handlePaymentSuccess` / `handlePaymentFailed` from
  `src/features/payment/services/paymentService.js`.
* `markTransactionPaid` and `updateUserAfterPurchase` embed the functions of
  the same names from the payment service module (`src/unnamed/part_001`).
* `registerIfNew`, `cncStep` and `runRace` embed the idempotency-ledger
  operations: the unique-constrained `WebhookEventLog.create` used by the
  payment service, and the findOne-then-create sequence at the top of
  `stripeWebhook` in `src/backend/controllers/webhookController.js`.
* `stripePaymentIntentFailed` embeds the
  `payment_intent.payment_failed` branch of `stripeWebhook`.

MongoDB documents are records, collections are lists of records, timestamps
are naturals counting milliseconds since the epoch (`Date.now()`), and the
provider-second timestamps of raw payloads are naturals that the code
multiplies by 1000.  `findOneAndUpdate` is modelled as updating the first
matching list element; `upsert` appends when no element matches.
-/

/-- Transaction statuses used across the app (TX_STATUS in paymentService). -/
inductive TxStatus
  | pending
  | paid
  | failed
  | refunded
deriving DecidableEq, Repr

/-- Metadata blob carried by payloads and stored on transactions.  It joins
the fields the two payment-service modules read:  `type`, `itemId`,
`artistId`, `externalSubscriptionId` from the webhook payload metadata, and
`cycle`, `razorpaySubscriptionId`, `paypalSubscriptionId` from
`transaction.metadata`.  Absent JS fields are `none`. -/
structure Metadata where
  type : Option String := none
  transactionId : Option Nat := none
  itemId : Option Nat := none
  artistId : Option Nat := none
  cycle : Option String := none
  externalSubscriptionId : Option String := none
  razorpaySubscriptionId : Option String := none
  paypalSubscriptionId : Option String := none
deriving DecidableEq, Repr

/-- A PurchaseTransaction document (Transaction model). -/
structure Transaction where
  id : Nat
  userId : Nat
  itemType : Option String := none
  itemId : Option Nat := none
  artistId : Option Nat := none
  amount : Nat := 0
  currency : String := "USD"
  status : TxStatus := .pending
  invoiceNumber : Option Nat := none
  paymentIntentId : Option String := none
  stripeSubscriptionId : Option String := none
  razorpaySubscriptionId : Option String := none
  razorpayOrderId : Option String := none
  paymentId : Option String := none
  paypalOrderId : Option String := none
  gateway : Option String := none
  metadata : Metadata := {}
  paidAt : Option Nat := none
  failedAt : Option Nat := none
  failureReason : Option String := none
  provider : Option String := none
deriving DecidableEq, Repr

/-- One purchase-history entry.  The two sites build slightly different
objects; fields a site does not set stay `none`. -/
structure HistoryEntry where
  itemType : Option String := none
  itemId : Option Nat := none
  price : Nat := 0
  amount : Option Nat := none
  currency : Option String := none
  paymentReference : Option Nat := none
  paymentId : Option String := none
  provider : Option String := none
  createdAt : Option Nat := none
deriving DecidableEq, Repr

/-- A User document: owned-item sets plus the purchase-history log.  The
owned sets hold `Option Nat` because the JS code passes `transaction.itemId`
(possibly undefined) straight into `$addToSet`. -/
structure User where
  id : Nat
  purchasedSongs : List (Option Nat) := []
  purchasedAlbums : List (Option Nat) := []
  purchaseHistory : List HistoryEntry := []
deriving DecidableEq, Repr

/-- A SubscriptionRecord document, keyed by (userId, artistId). -/
structure SubscriptionRecord where
  userId : Nat
  artistId : Option Nat := none
  status : String := "active"
  validUntil : Nat := 0
  gateway : Option String := none
  externalSubscriptionId : Option String := none
  transactionId : Option Nat := none
  createdAt : Option Nat := none
deriving DecidableEq, Repr

/-- The durable state the handlers touch: the WebhookEventLog idempotency
ledger (its `eventId` column, which carries the unique index), the
Transaction, User and Subscription collections, and the state of the
invoice-numbering collaborator. -/
structure Store where
  ledger : List String := []
  transactions : List Transaction := []
  users : List User := []
  subscriptions : List SubscriptionRecord := []
  nextInvoice : Nat := 1
deriving DecidableEq, Repr

/-- Mongo `$addToSet`: append the value only when it is not yet a member. -/
def addToSet {α : Type} [DecidableEq α] (l : List α) (x : α) : List α :=
  if x ∈ l then l else l ++ [x]

/-- Mongo `findOneAndUpdate`: rewrite the first element satisfying the
query, leave everything else in place. -/
def updateFirst {α : Type} (l : List α) (p : α → Bool) (f : α → α) : List α :=
  match l with
  | [] => []
  | x :: xs => if p x then f x :: xs else x :: updateFirst xs p f

/-- Mongo `findOneAndUpdate` with `upsert: true`: update the first match, or
insert the freshly built document when nothing matches. -/
def subUpsert (subs : List SubscriptionRecord) (p : SubscriptionRecord → Bool)
    (f : SubscriptionRecord → SubscriptionRecord) (mk : SubscriptionRecord) :
    List SubscriptionRecord :=
  if subs.any p then updateFirst subs p f else subs ++ [mk]

/-- Raw provider payload fields the success handler reads.
`current_period_end` is Stripe's field (seconds); `current_end` flattens
Razorpay's `raw.payload.subscription.entity.current_end` (seconds). -/
structure RawPayload where
  current_period_end : Option Nat := none
  current_end : Option Nat := none
deriving DecidableEq, Repr

/-- Payload of `PaymentService.handlePaymentSuccess`. -/
structure SuccessPayload where
  eventId : Option String := none
  transactionId : Option Nat := none
  userId : Option Nat := none
  metadata : Metadata := {}
  provider : Option String := none
  raw : Option RawPayload := none
deriving DecidableEq, Repr

/-- Result of `PaymentService.handlePaymentSuccess`:
`alreadyProcessed` is the `{ alreadyProcessed: true }` return (duplicate
event id, or transaction not found / already paid); `ok` is
`{ ok: true, transaction: tx }`; `errMissingTransactionId` is the
`throw new Error("Missing transactionId ...")` that aborts the session and
propagates to the caller. -/
inductive SuccessOutcome
  | alreadyProcessed
  | ok (tx : Transaction)
  | errMissingTransactionId
deriving DecidableEq, Repr

/-- validUntil computed inside `handlePaymentSuccess` for subscription
purchases: default `Date.now() + 30 days`, overridden by the provider's
period-end (seconds, multiplied by 1000) when present in `raw`. -/
def successValidUntil (p : SuccessPayload) (now : Nat) : Nat :=
  if p.provider = some "stripe" then
    match p.raw.bind RawPayload.current_period_end with
    | some cpe => cpe * 1000
    | none => now + 30 * 24 * 60 * 60 * 1000
  else if p.provider = some "razorpay" then
    match p.raw.bind RawPayload.current_end with
    | some ce => ce * 1000
    | none => now + 30 * 24 * 60 * 60 * 1000
  else now + 30 * 24 * 60 * 60 * 1000

/-- The `session.withTransaction` body of `handlePaymentSuccess`.  The only
throw point (`Missing transactionId`) comes before any write inside the
session, so the aborted session leaves the store untouched. -/
def handleSuccessBody (st : Store) (p : SuccessPayload) (now : Nat) :
    SuccessOutcome × Store :=
  match p.transactionId with
  | none => (.errMissingTransactionId, st)
  | some txId =>
    match st.transactions.find?
        (fun t => decide (t.id = txId ∧ t.status ≠ TxStatus.paid)) with
    | none => (.alreadyProcessed, st)
    | some tx0 =>
      let tx :=
        { tx0 with
          status := TxStatus.paid
          paidAt := some now
          provider := p.provider }
      let txs := updateFirst st.transactions
        (fun t => decide (t.id = txId ∧ t.status ≠ TxStatus.paid))
        (fun t =>
          { t with
            status := TxStatus.paid
            paidAt := some now
            provider := p.provider })
      let histEntry : HistoryEntry :=
        { itemType := p.metadata.type
          itemId := p.metadata.itemId <|> tx.itemId
          price := tx.amount
          paymentReference := some tx.id
          provider := p.provider
          createdAt := some now }
      let userOp : User → User := fun u =>
        let u := { u with purchaseHistory := u.purchaseHistory ++ [histEntry] }
        if p.metadata.type = some "song" ∨ tx.itemType = some "song" then
          { u with purchasedSongs :=
              addToSet u.purchasedSongs (p.metadata.itemId <|> tx.itemId) }
        else if p.metadata.type = some "album" ∨ tx.itemType = some "album" then
          { u with purchasedAlbums :=
              addToSet u.purchasedAlbums (p.metadata.itemId <|> tx.itemId) }
        else u
      let users := updateFirst st.users (fun u => decide (u.id = tx.userId)) userOp
      let subs :=
        if p.metadata.type = some "artist-subscription" ∨
            tx.itemType = some "artist-subscription" then
          match p.metadata.artistId <|> tx.artistId <|>
              p.metadata.itemId <|> tx.itemId with
          | none => st.subscriptions
          | some artistId =>
            let validUntil := successValidUntil p now
            let extId := p.metadata.externalSubscriptionId <|>
              tx.stripeSubscriptionId <|> tx.razorpaySubscriptionId
            subUpsert st.subscriptions
              (fun s => decide (s.userId = tx.userId ∧ s.artistId = some artistId))
              (fun s =>
                { s with
                  status := "active"
                  validUntil := validUntil
                  gateway := p.provider
                  externalSubscriptionId := extId
                  transactionId := some tx.id })
              { userId := tx.userId
                artistId := some artistId
                status := "active"
                validUntil := validUntil
                gateway := p.provider
                externalSubscriptionId := extId
                transactionId := some tx.id
                createdAt := some now }
        else st.subscriptions
      (.ok tx,
        { st with
          transactions := txs
          users := users
          subscriptions := subs })

/-- `PaymentService.handlePaymentSuccess`.  The idempotency step runs first
and outside the session: `WebhookEventLog.create` either inserts the event
id or fails on the unique index, in which case the handler returns
`{ alreadyProcessed: true }` without further effects. -/
def handlePaymentSuccess (st : Store) (p : SuccessPayload) (now : Nat) :
    SuccessOutcome × Store :=
  match p.eventId with
  | some e =>
    if e ∈ st.ledger then (.alreadyProcessed, st)
    else handleSuccessBody { st with ledger := st.ledger ++ [e] } p now
  | none => handleSuccessBody st p now

/-- Payload of `PaymentService.handlePaymentFailed`. -/
structure FailedPayload where
  eventId : Option String := none
  transactionId : Option Nat := none
  reason : Option String := none
  provider : Option String := none
deriving DecidableEq, Repr

/-- Result of `PaymentService.handlePaymentFailed`. -/
inductive FailedOutcome
  | alreadyProcessed
  | okFailed (tx : Transaction)
  | missingTransactionId
deriving DecidableEq, Repr

/-- The post-ledger part of `handlePaymentFailed`: guard
`{ _id, status: { $ne: "failed" } }`, set status to `failed`. -/
def handlePaymentFailedBody (st : Store) (p : FailedPayload) (now : Nat) :
    FailedOutcome × Store :=
  match p.transactionId with
  | none => (.missingTransactionId, st)
  | some txId =>
    match st.transactions.find?
        (fun t => decide (t.id = txId ∧ t.status ≠ TxStatus.failed)) with
    | none => (.alreadyProcessed, st)
    | some tx0 =>
      let tx :=
        { tx0 with
          status := TxStatus.failed
          failedAt := some now
          failureReason := p.reason
          provider := p.provider }
      (.okFailed tx,
        { st with
          transactions := updateFirst st.transactions
            (fun t => decide (t.id = txId ∧ t.status ≠ TxStatus.failed))
            (fun t =>
              { t with
                status := TxStatus.failed
                failedAt := some now
                failureReason := p.reason
                provider := p.provider }) })

/-- `PaymentService.handlePaymentFailed`: optional idempotency insert, then
the conditional failed-update. -/
def handlePaymentFailed (st : Store) (p : FailedPayload) (now : Nat) :
    FailedOutcome × Store :=
  match p.eventId with
  | some e =>
    if e ∈ st.ledger then (.alreadyProcessed, st)
    else handlePaymentFailedBody { st with ledger := st.ledger ++ [e] } p now
  | none => handlePaymentFailedBody st p now

/-- The `payment_intent.payment_failed` branch of `stripeWebhook`:
`Transaction.findOneAndUpdate({ paymentIntentId }, { status: "failed" })` —
no guard on the current status at all. -/
def stripePaymentIntentFailed (st : Store) (paymentIntentId : String) : Store :=
  { st with
    transactions := updateFirst st.transactions
      (fun t => decide (t.paymentIntentId = some paymentIntentId))
      (fun t => { t with status := TxStatus.failed }) }

/-- Plan-cycle durations (days) from the payment service:
`subscriptionDuration = { "1m": 30, "3m": 90, "6m": 180 }`, looked up as
`subscriptionDuration[cycle] || 30`. -/
def subscriptionDuration (cycle : Option String) : Nat :=
  match cycle with
  | some "1m" => 30
  | some "3m" => 90
  | some "6m" => 180
  | _ => 30

/-- Identifier bundle passed to `markTransactionPaid`. -/
structure MTPArgs where
  gateway : Option String := none
  paymentId : Option String := none
  razorpayOrderId : Option String := none
  paymentIntentId : Option String := none
  stripeSubscriptionId : Option String := none
  subscriptionId : Option String := none
deriving DecidableEq, Repr

/-- The lookup query `markTransactionPaid` builds per gateway, as a
predicate on transactions.  Mongoose drops query keys whose value is
undefined, so a branch that ends with an absent identifier leaves the query
`{}`, which matches every document (findOne then returns the first). -/
def mtpQuery (a : MTPArgs) (t : Transaction) : Bool :=
  match a.gateway with
  | some "stripe" =>
    match a.stripeSubscriptionId with
    | some s => decide (t.stripeSubscriptionId = some s)
    | none =>
      match a.paymentIntentId with
      | some pi => decide (t.paymentIntentId = some pi)
      | none => true
  | some "razorpay" =>
    match a.subscriptionId with
    | some s => decide (t.metadata.razorpaySubscriptionId = some s)
    | none =>
      match a.razorpayOrderId with
      | some o => decide (t.razorpayOrderId = some o)
      | none =>
        match a.paymentId with
        | some pay => decide (t.paymentId = some pay)
        | none => true
  | some "paypal" =>
    match a.subscriptionId with
    | some s => decide (t.metadata.paypalSubscriptionId = some s)
    | none =>
      match a.paymentId with
      | some pay => decide (t.paypalOrderId = some pay)
      | none => true
  | _ => true

/-- Modelled from the spec: the invoice-numbering collaborator
(`getNextInvoiceNumber` in `utils/invoiceNumber.js` is not part of the
sources).  Per the external-interface contract it returns the next number of
a monotonic, externally durable sequence; the store keeps that sequence's
state in `nextInvoice`. -/
def getNextInvoiceNumber (st : Store) : Nat × Store :=
  (st.nextInvoice, { st with nextInvoice := st.nextInvoice + 1 })

/-- `markTransactionPaid` from the payment service: bail out when no
gateway is given; find the transaction by the gateway-specific query;
return null when nothing matches or the match is already paid; otherwise
set status to paid, assign the next invoice number, and save. -/
def markTransactionPaid (st : Store) (a : MTPArgs) :
    Option Transaction × Store :=
  if a.gateway = none then (none, st)
  else
    match st.transactions.find? (mtpQuery a) with
    | none => (none, st)
    | some tx =>
      if tx.status = TxStatus.paid then (none, st)
      else
        let (invoiceNumber, st) := getNextInvoiceNumber st
        let tx :=
          { tx with
            status := TxStatus.paid
            invoiceNumber := some invoiceNumber }
        (some tx,
          { st with
            transactions := updateFirst st.transactions (mtpQuery a)
              (fun t =>
                { t with
                  status := TxStatus.paid
                  invoiceNumber := some invoiceNumber }) })

/-- Fallback chain for the subscription's external id in
`updateUserAfterPurchase` (nullish-coalescing chain ending in "unknown"). -/
def fallbackExternalId (tx : Transaction) : String :=
  (tx.metadata.externalSubscriptionId <|> tx.metadata.razorpaySubscriptionId <|>
    tx.metadata.paypalSubscriptionId <|> tx.stripeSubscriptionId <|>
    tx.paymentIntentId <|> tx.razorpayOrderId).getD "unknown"

/-- validUntil computed in the artist-subscription branch of
`updateUserAfterPurchase`: `now + (subscriptionDuration[cycle] || 30) days`,
overridden by Stripe's `current_period_end` (seconds) when the transaction
has a `stripeSubscriptionId` and the live Stripe lookup returns a period.
`stripePeriodEnd` stands for that network lookup's result (`none` covers
both an absent period and a failed fetch). -/
def uuapValidUntil (tx : Transaction) (now : Nat)
    (stripePeriodEnd : Option Nat) : Nat :=
  let daysToAdd := subscriptionDuration tx.metadata.cycle
  let base := now + daysToAdd * 24 * 60 * 60 * 1000
  match tx.stripeSubscriptionId with
  | some _ =>
    match stripePeriodEnd with
    | some pe => pe * 1000
    | none => base
  | none => base

/-- The refreshed fields of the subscription upsert in
`updateUserAfterPurchase`. -/
def uuapRefresh (tx : Transaction) (now : Nat) (stripePeriodEnd : Option Nat)
    (s : SubscriptionRecord) : SubscriptionRecord :=
  { s with
    status := "active"
    validUntil := uuapValidUntil tx now stripePeriodEnd
    gateway := tx.gateway
    externalSubscriptionId := some (fallbackExternalId tx)
    transactionId := some tx.id }

/-- The document inserted when the subscription upsert of
`updateUserAfterPurchase` finds no (userId, artistId) record
(`setDefaultsOnInsert` fills `createdAt`). -/
def uuapInsert (tx : Transaction) (now : Nat) (stripePeriodEnd : Option Nat) :
    SubscriptionRecord :=
  { userId := tx.userId
    artistId := tx.artistId
    status := "active"
    validUntil := uuapValidUntil tx now stripePeriodEnd
    gateway := tx.gateway
    externalSubscriptionId := some (fallbackExternalId tx)
    transactionId := some tx.id
    createdAt := some now }

/-- `updateUserAfterPurchase` from the payment service.  The switch on
`transaction.itemType` chooses the `$addToSet` operation (song, album) or,
for artist subscriptions, performs the Subscription upsert; the single
`User.findByIdAndUpdate` then applies the history push and the set update.
When the user does not exist the function returns false — but the
subscription upsert of the switch has already run at that point. -/
def updateUserAfterPurchase (st : Store) (tx : Transaction)
    (paymentId : String) (now : Nat) (stripePeriodEnd : Option Nat) :
    Bool × Store :=
  let histEntry : HistoryEntry :=
    { itemType := tx.itemType
      itemId := tx.itemId
      price := tx.amount
      amount := some tx.amount
      currency := some tx.currency
      paymentId := some paymentId }
  let setsOp : User → User :=
    if tx.itemType = some "song" then
      fun u => { u with purchasedSongs := addToSet u.purchasedSongs tx.itemId }
    else if tx.itemType = some "album" then
      fun u => { u with purchasedAlbums := addToSet u.purchasedAlbums tx.itemId }
    else id
  let subs :=
    if tx.itemType = some "artist-subscription" then
      subUpsert st.subscriptions
        (fun s => decide (s.userId = tx.userId ∧ s.artistId = tx.artistId))
        (uuapRefresh tx now stripePeriodEnd)
        (uuapInsert tx now stripePeriodEnd)
    else st.subscriptions
  if st.users.any (fun u => decide (u.id = tx.userId)) then
    (true,
      { st with
        users := updateFirst st.users (fun u => decide (u.id = tx.userId))
          (fun u =>
            setsOp { u with purchaseHistory := u.purchaseHistory ++ [histEntry] })
        subscriptions := subs })
  else (false, { st with subscriptions := subs })

/-- Outcome of one ledger registration. -/
inductive RegisterResult
  | new
  | duplicate
deriving DecidableEq, Repr

/-- The idempotency registration of `handlePaymentSuccess` /
`handlePaymentFailed`: one `WebhookEventLog.create` against the unique
`eventId` index — a single atomic step that either inserts (NEW) or raises
the duplicate-key error the handler maps to already-processed (DUPLICATE).
The unique index itself is modelled from the spec (the WebhookEventLog
schema is not among the sources; the handler's `err.code === 11000` branch
and the spec's unique-constrained IdempotencyRecord prescribe it). -/
def registerIfNew (ledger : List String) (e : String) :
    RegisterResult × List String :=
  if e ∈ ledger then (.duplicate, ledger) else (.new, ledger ++ [e])

/-- Progress of one `stripeWebhook` invocation through its ledger prologue:
pc 0 = before `WebhookEventLog.findOne`, pc 1 = before
`WebhookEventLog.create`, pc 2 = done (either responded duplicate, or
inserted and proceeding as new), pc 3 = `create` raised the duplicate-key
error (uncaught at that point in the controller). -/
structure CallerState where
  pc : Nat := 0
  sawDuplicate : Bool := false
deriving DecidableEq, Repr

/-- State of two concurrent `stripeWebhook` invocations racing on the same
event id: the shared ledger plus both callers. -/
structure RaceState where
  ledger : List String := []
  a : CallerState := {}
  b : CallerState := {}
deriving DecidableEq, Repr

/-- One atomic step of the `stripeWebhook` ledger prologue: the `findOne`
duplicate check and the `create` insert are two separate store operations,
so each is its own step. -/
def cncStep (ledger : List String) (e : String) (c : CallerState) :
    CallerState × List String :=
  match c.pc with
  | 0 => ({ c with pc := 1, sawDuplicate := decide (e ∈ ledger) }, ledger)
  | 1 =>
    if c.sawDuplicate then ({ c with pc := 2 }, ledger)
    else if e ∈ ledger then ({ c with pc := 3 }, ledger)
    else ({ c with pc := 2 }, ledger ++ [e])
  | _ => (c, ledger)

/-- Run the two racing `stripeWebhook` invocations under a schedule:
`true` lets caller a take its next step, `false` caller b. -/
def runRace (e : String) : List Bool → RaceState → RaceState
  | [], s => s
  | true :: rest, s =>
    let (a, l) := cncStep s.ledger e s.a
    runRace e rest { s with a := a, ledger := l }
  | false :: rest, s =>
    let (b, l) := cncStep s.ledger e s.b
    runRace e rest { s with b := b, ledger := l }

/-- The stripe event object fields the webhook switch reads from
`event.data.object`: `id`, `invoice`, `subscription` and the metadata blob
(for `metadata.transactionId`). -/
structure StripeEventData where
  id : String := ""
  invoice : Option String := none
  subscription : Option String := none
  metadata : Metadata := {}
deriving DecidableEq, Repr

/-- A verified stripe webhook event: `event.id`, `event.type` and
`event.data.object`. -/
structure StripeEvent where
  id : String
  type : String
  data : StripeEventData := {}
deriving DecidableEq, Repr

/-- The two acknowledgements `stripeWebhook` sends: status 200 with
`duplicate: true` from the ledger prologue, or the plain 200
`received: true`. -/
inductive WebhookResponse
  | duplicate
  | received
deriving DecidableEq, Repr

/-- The event switch of `stripeWebhook` (everything after the ledger
prologue).  `now` feeds the `new Date()` calls and `spe` stands for the
Stripe period lookup inside `updateUserAfterPurchase`; a payment reference
that is absent in JS is modelled as the empty string.  The
`invoice.payment_failed` query drops its key when `data.subscription` is
undefined (mongoose strips undefined query values), matching every
subscription document. -/
def stripeWebhookSwitch (st : Store) (ev : StripeEvent) (now : Nat)
    (spe : Option Nat) : Store :=
  if ev.type = "payment_intent.succeeded" then
    if ev.data.invoice.isSome then st
    else if ev.data.metadata.transactionId = none then st
    else
      let r := markTransactionPaid st
        { gateway := some "stripe", paymentIntentId := some ev.data.id }
      match r.1 with
      | some tx => (updateUserAfterPurchase r.2 tx ev.data.id now spe).2
      | none => r.2
  else if ev.type = "invoice.payment_succeeded" then
    let r := markTransactionPaid st
      { gateway := some "stripe", stripeSubscriptionId := ev.data.subscription }
    match r.1 with
    | some tx =>
      (updateUserAfterPurchase r.2 tx (ev.data.subscription.getD "") now spe).2
    | none => r.2
  else if ev.type = "invoice.payment_failed" then
    { st with
      subscriptions := updateFirst st.subscriptions
        (fun s =>
          match ev.data.subscription with
          | some sid => decide (s.externalSubscriptionId = some sid)
          | none => true)
        (fun s => { s with status := "failed" }) }
  else if ev.type = "customer.subscription.deleted" then
    { st with
      subscriptions := updateFirst st.subscriptions
        (fun s => decide (s.externalSubscriptionId = some ev.data.id))
        (fun s => { s with status := "cancelled" }) }
  else if ev.type = "payment_intent.payment_failed" then
    stripePaymentIntentFailed st ev.data.id
  else st

/-- The `stripeWebhook` controller: the ledger prologue (findOne on the
event id, early duplicate acknowledgement, create) followed by the event
switch.  Sequentially the prologue reads and then inserts; the
interleaved-race behaviour of the same two operations is modelled by
`cncStep`/`runRace`. -/
def stripeWebhook (st : Store) (ev : StripeEvent) (now : Nat)
    (spe : Option Nat) : WebhookResponse × Store :=
  if ev.id ∈ st.ledger then (.duplicate, st)
  else
    (.received,
      stripeWebhookSwitch { st with ledger := st.ledger ++ [ev.id] } ev now spe)

/-- One reconciliation operation mutating the user and subscription
collections: an Entitlement-Updater grant (`updateUserAfterPurchase` with
its payment reference, time and period-lookup result) or a success-handler
invocation (`PaymentService.handlePaymentSuccess`). -/
inductive ReconOp
  | grant (tx : Transaction) (pid : String) (now : Nat) (spe : Option Nat)
  | success (p : SuccessPayload) (now : Nat)

/-- Apply one reconciliation operation to the store. -/
def applyOp (st : Store) (op : ReconOp) : Store :=
  match op with
  | .grant tx pid now spe => (updateUserAfterPurchase st tx pid now spe).2
  | .success p now => (handlePaymentSuccess st p now).2

/-! Helper lemmas about the Mongo-operation models. -/

theorem find?_split {α : Type} {l : List α} {q : α → Bool} {x : α}
    (h : l.find? q = some x) :
    ∃ l₁ l₂, l = l₁ ++ x :: l₂ ∧ ∀ y ∈ l₁, q y = false := by
  induction l with
  | nil => simp at h
  | cons a as ih =>
    cases hqa : q a with
    | true =>
      rw [List.find?_cons_of_pos _ hqa] at h
      obtain rfl := Option.some.inj h
      exact ⟨[], as, by simp, by simp⟩
    | false =>
      rw [List.find?_cons_of_neg _ (by simp [hqa])] at h
      obtain ⟨l₁, l₂, hl, hq⟩ := ih h
      refine ⟨a :: l₁, l₂, by rw [hl]; rfl, ?_⟩
      intro y hy
      rcases List.mem_cons.mp hy with rfl | hy
      · exact hqa
      · exact hq y hy

theorem find?_prefix_cons {α : Type} (l₁ l₂ : List α) (x : α) (q : α → Bool)
    (h1 : ∀ y ∈ l₁, q y = false) (hx : q x = true) :
    (l₁ ++ x :: l₂).find? q = some x := by
  induction l₁ with
  | nil => simpa using List.find?_cons_of_pos l₂ hx
  | cons a as ih =>
    have ha : q a = false := h1 a (by simp)
    rw [List.cons_append, List.find?_cons_of_neg _ (by simp [ha])]
    exact ih (fun y hy => h1 y (by simp [hy]))

theorem updateFirst_prefix_cons {α : Type} (l₁ l₂ : List α) (x : α)
    (p : α → Bool) (f : α → α)
    (h1 : ∀ y ∈ l₁, p y = false) (hx : p x = true) :
    updateFirst (l₁ ++ x :: l₂) p f = l₁ ++ f x :: l₂ := by
  induction l₁ with
  | nil => simp [updateFirst, hx]
  | cons a as ih =>
    have ha : p a = false := h1 a (by simp)
    simp only [List.cons_append, updateFirst, ha]
    simp [ih (fun y hy => h1 y (by simp [hy]))]

theorem find?_updateFirst {α : Type} (l : List α) (p : α → Bool) (f : α → α)
    (hp : ∀ x, p x = true → p (f x) = true) :
    (updateFirst l p f).find? p = (l.find? p).map f := by
  induction l with
  | nil => rfl
  | cons a as ih =>
    cases hpa : p a with
    | true =>
      simp [updateFirst, hpa, List.find?_cons_of_pos _ (hp a hpa),
        List.find?_cons_of_pos _ hpa]
    | false =>
      simp [updateFirst, hpa, List.find?_cons_of_neg _ (by simp [hpa] :
        ¬(p a = true)), ih]

theorem length_updateFirst {α : Type} (l : List α) (p : α → Bool) (f : α → α) :
    (updateFirst l p f).length = l.length := by
  induction l with
  | nil => rfl
  | cons a as ih =>
    by_cases hpa : p a
    · simp [updateFirst, hpa]
    · simp [updateFirst, hpa, ih]

theorem mem_updateFirst {α : Type} {l : List α} {p : α → Bool} {f : α → α}
    {y : α} (h : y ∈ updateFirst l p f) : y ∈ l ∨ ∃ z ∈ l, y = f z := by
  induction l with
  | nil => simp [updateFirst] at h
  | cons a as ih =>
    by_cases hpa : p a
    · simp only [updateFirst, hpa, if_pos] at h
      rcases List.mem_cons.mp h with rfl | h
      · exact Or.inr ⟨a, by simp, rfl⟩
      · exact Or.inl (List.mem_cons.mpr (Or.inr h))
    · simp only [updateFirst, hpa, if_neg, Bool.not_eq_true] at h
      rcases List.mem_cons.mp h with rfl | h
      · exact Or.inl (by simp)
      · rcases ih h with h1 | ⟨z, hz, rfl⟩
        · exact Or.inl (List.mem_cons.mpr (Or.inr h1))
        · exact Or.inr ⟨z, List.mem_cons.mpr (Or.inr hz), rfl⟩

theorem map_updateFirst {α β : Type} (g : α → β) (l : List α) (p : α → Bool)
    (f : α → α) (hg : ∀ x, g (f x) = g x) :
    (updateFirst l p f).map g = l.map g := by
  induction l with
  | nil => rfl
  | cons a as ih =>
    by_cases hpa : p a
    · simp [updateFirst, hpa, hg]
    · simp [updateFirst, hpa, ih]

theorem addToSet_nodup {α : Type} [DecidableEq α] {l : List α} (x : α)
    (h : l.Nodup) : (addToSet l x).Nodup := by
  unfold addToSet
  by_cases hx : x ∈ l
  · simpa [hx] using h
  · simp [hx, List.nodup_append, h]

theorem pairwise_updateFirst {α : Type} {R : α → α → Prop} {l : List α}
    (p : α → Bool) (f : α → α)
    (hR1 : ∀ x y, R x y → R x (f y)) (hR2 : ∀ x y, R x y → R (f x) y)
    (h : l.Pairwise R) : (updateFirst l p f).Pairwise R := by
  induction l with
  | nil => constructor
  | cons a as ih =>
    rcases List.pairwise_cons.mp h with ⟨ha, has⟩
    by_cases hpa : p a
    · simp only [updateFirst, hpa, if_pos]
      exact List.pairwise_cons.mpr ⟨fun y hy => hR2 a y (ha y hy), has⟩
    · simp only [updateFirst, hpa, if_neg, Bool.not_eq_true]
      refine List.pairwise_cons.mpr ⟨?_, ih has⟩
      intro y hy
      rcases mem_updateFirst hy with h1 | ⟨z, hz, rfl⟩
      · exact ha y h1
      · exact hR1 a z (ha z hz)

theorem subUpsert_find? (subs : List SubscriptionRecord)
    (p : SubscriptionRecord → Bool) (f : SubscriptionRecord → SubscriptionRecord)
    (mk : SubscriptionRecord)
    (hp : ∀ s, p s = true → p (f s) = true) (hmk : p mk = true) :
    (subUpsert subs p f mk).find? p =
      some (((subs.find? p).map f).getD mk) := by
  unfold subUpsert
  cases hany : subs.any p with
  | false =>
    have hall : ∀ y ∈ subs, p y = false := by
      intro y hy
      by_contra hc
      have : subs.any p = true := List.any_eq_true.mpr
        ⟨y, hy, by simpa using hc⟩
      simp [hany] at this
    have hnone : subs.find? p = none := by
      cases hf : subs.find? p with
      | none => rfl
      | some s =>
        have hm := List.mem_of_find?_eq_some hf
        have hs := List.find?_some hf
        simp [hall s hm] at hs
    rw [hnone]
    simpa using find?_prefix_cons subs [] mk p hall hmk
  | true =>
    obtain ⟨s, hs, hps⟩ := List.any_eq_true.mp hany
    have hsome : (subs.find? p).isSome := by
      rw [List.find?_isSome]
      exact ⟨s, hs, hps⟩
    obtain ⟨s0, hs0⟩ := Option.isSome_iff_exists.mp hsome
    rw [if_pos rfl, find?_updateFirst subs p f hp, hs0]
    rfl

/-! Facts about the success handler used by several claims. -/

theorem handleSuccessBody_ledger (st : Store) (p : SuccessPayload) (now : Nat) :
    (handleSuccessBody st p now).2.ledger = st.ledger := by
  unfold handleSuccessBody
  split
  · rfl
  split
  · rfl
  · rfl

theorem handlePaymentSuccess_ledger_mem (st : Store) (p : SuccessPayload)
    (now : Nat) (e : String) (h : p.eventId = some e) :
    e ∈ (handlePaymentSuccess st p now).2.ledger := by
  unfold handlePaymentSuccess
  rw [h]
  by_cases he : e ∈ st.ledger
  · simp [he]
  · simp [he, handleSuccessBody_ledger]

theorem handlePaymentSuccess_of_mem (st : Store) (p : SuccessPayload)
    (now : Nat) (e : String) (h : p.eventId = some e) (hm : e ∈ st.ledger) :
    handlePaymentSuccess st p now = (.alreadyProcessed, st) := by
  unfold handlePaymentSuccess
  rw [h]
  simp [hm]

theorem handleSuccessBody_invoiceNumbers (st : Store) (p : SuccessPayload)
    (now : Nat) :
    (handleSuccessBody st p now).2.transactions.map Transaction.invoiceNumber =
      st.transactions.map Transaction.invoiceNumber := by
  unfold handleSuccessBody
  split
  · rfl
  next txId heq =>
    split
    · rfl
    next tx0 htx0 =>
      exact map_updateFirst Transaction.invoiceNumber st.transactions
        (fun t => decide (t.id = txId ∧ t.status ≠ TxStatus.paid))
        (fun t =>
          { t with
            status := TxStatus.paid
            paidAt := some now
            provider := p.provider })
        (fun t => rfl)

theorem handlePaymentSuccess_invoiceNumbers (st : Store) (p : SuccessPayload)
    (now : Nat) :
    (handlePaymentSuccess st p now).2.transactions.map Transaction.invoiceNumber =
      st.transactions.map Transaction.invoiceNumber := by
  unfold handlePaymentSuccess
  cases p.eventId with
  | none => exact handleSuccessBody_invoiceNumbers st p now
  | some e =>
    by_cases he : e ∈ st.ledger
    · simp [he]
    · simp only [he, if_neg, if_false]
      exact handleSuccessBody_invoiceNumbers _ p now

theorem markTransactionPaid_ledger (st : Store) (a : MTPArgs) :
    (markTransactionPaid st a).2.ledger = st.ledger := by
  unfold markTransactionPaid
  split
  · rfl
  split
  · rfl
  next tx hfind =>
    split
    · rfl
    · rfl

theorem updateUserAfterPurchase_ledger (st : Store) (tx : Transaction)
    (pid : String) (now : Nat) (spe : Option Nat) :
    (updateUserAfterPurchase st tx pid now spe).2.ledger = st.ledger := by
  unfold updateUserAfterPurchase
  dsimp only
  split
  · rfl
  · rfl

theorem stripeWebhookSwitch_ledger (st : Store) (ev : StripeEvent) (now : Nat)
    (spe : Option Nat) :
    (stripeWebhookSwitch st ev now spe).ledger = st.ledger := by
  unfold stripeWebhookSwitch
  split
  · split
    · rfl
    split
    · rfl
    · dsimp only
      split
      next tx htx =>
        rw [updateUserAfterPurchase_ledger, markTransactionPaid_ledger]
      next htx =>
        rw [markTransactionPaid_ledger]
  split
  · dsimp only
    split
    next tx htx =>
      rw [updateUserAfterPurchase_ledger, markTransactionPaid_ledger]
    next htx =>
      rw [markTransactionPaid_ledger]
  split
  · rfl
  split
  · rfl
  split
  · rfl
  · rfl

theorem stripeWebhook_ledger_mem (st : Store) (ev : StripeEvent) (now : Nat)
    (spe : Option Nat) :
    ev.id ∈ (stripeWebhook st ev now spe).2.ledger := by
  unfold stripeWebhook
  by_cases hm : ev.id ∈ st.ledger
  · simp [hm]
  · simp [hm, stripeWebhookSwitch_ledger]

theorem stripeWebhook_of_mem (st : Store) (ev : StripeEvent) (now : Nat)
    (spe : Option Nat) (hm : ev.id ∈ st.ledger) :
    stripeWebhook st ev now spe = (.duplicate, st) := by
  unfold stripeWebhook
  simp [hm]

/-! Claim C1. -/

/-- Concrete paid transaction for the C1 counterexample. -/
def c1Store : Store :=
  { transactions := [{ id := 1, userId := 1, status := TxStatus.paid }] }

/-- C1 counterexample: a transaction whose status is paid does not keep
status paid under a failure event — `handlePaymentFailed` moves it to
failed, because its guard is only `status ≠ failed`. -/
theorem C1_counterexample :
    c1Store.transactions.map Transaction.status = [TxStatus.paid] ∧
    (handlePaymentFailed c1Store { transactionId := some 1 } 5).2.transactions.map
      Transaction.status = [TxStatus.failed] := by
  constructor
  · rfl
  · rfl

/-- C1 (amended): the failure-path guard is only `status ≠ failed`, so a
paid transaction hit by a failure event is transitioned to failed — the
paid-to-failed transition is applied, not ignored.  The transaction found
first by id (here with status paid) ends with status failed in the store,
and the handler reports the transition (`okFailed`).  The stripe
`payment_intent.payment_failed` branch likewise rewrites the matched
transaction to failed with no status guard at all. -/
theorem C1_amended (st : Store) (txId now : Nat) (r pr : Option String)
    (tx : Transaction)
    (hfind : st.transactions.find? (fun t => decide (t.id = txId)) = some tx)
    (hpaid : tx.status = TxStatus.paid) :
    (handlePaymentFailed st
        { transactionId := some txId
          reason := r
          provider := pr } now).1 =
      FailedOutcome.okFailed
        { tx with
          status := TxStatus.failed
          failedAt := some now
          failureReason := r
          provider := pr } ∧
    ((handlePaymentFailed st
        { transactionId := some txId
          reason := r
          provider := pr } now).2.transactions.find?
      (fun t => decide (t.id = txId))).map Transaction.status =
      some TxStatus.failed ∧
    (∀ st2 pid,
      (stripePaymentIntentFailed st2 pid).transactions.find?
          (fun t => decide (t.paymentIntentId = some pid)) =
        (st2.transactions.find?
            (fun t => decide (t.paymentIntentId = some pid))).map
          (fun t => { t with status := TxStatus.failed })) := by
  have htxid : tx.id = txId := by
    have h1 := List.find?_some hfind
    simpa using h1
  obtain ⟨l₁, l₂, hl, hfalse⟩ := find?_split hfind
  have hq1 : ∀ y ∈ l₁,
      (fun t => decide (t.id = txId ∧ t.status ≠ TxStatus.failed)) y = false := by
    intro y hy
    have hy2 := hfalse y hy
    simp only [decide_eq_false_iff_not] at hy2 ⊢
    exact fun hc => hy2 hc.1
  have hqtx :
      (fun t => decide (t.id = txId ∧ t.status ≠ TxStatus.failed)) tx = true := by
    simp only [decide_eq_true_eq]
    exact ⟨htxid, by rw [hpaid]; simp⟩
  have hfq : st.transactions.find?
      (fun t => decide (t.id = txId ∧ t.status ≠ TxStatus.failed)) = some tx := by
    rw [hl]
    exact find?_prefix_cons l₁ l₂ tx _ hq1 hqtx
  refine ⟨?_, ?_, ?_⟩
  · unfold handlePaymentFailed handlePaymentFailedBody
    simp only [hfq]
  · unfold handlePaymentFailed handlePaymentFailedBody
    simp only [hfq]
    rw [hl, updateFirst_prefix_cons l₁ l₂ tx _ _ hq1 hqtx,
      find?_prefix_cons l₁ l₂ _ _ hfalse (by simp [htxid])]
    rfl
  · intro st2 pid
    unfold stripePaymentIntentFailed
    exact find?_updateFirst st2.transactions _ _ (fun t ht => ht)

/-- Concrete inputs for the C1 witness. -/
def c1wTx : Transaction := { id := 2, userId := 1, status := TxStatus.paid }

/-- Concrete store for the C1 witness. -/
def c1wStore : Store := { transactions := [c1wTx] }

/-- C1 witness: the amended theorem applies to a concrete paid
transaction. -/
theorem C1_amended_witness :
    (c1wStore.transactions.find? (fun t => decide (t.id = 2)) = some c1wTx) ∧
    c1wTx.status = TxStatus.paid ∧
    (handlePaymentFailed c1wStore
        { transactionId := some 2
          reason := none
          provider := none } 9).1 =
      FailedOutcome.okFailed
        { c1wTx with
          status := TxStatus.failed
          failedAt := some 9
          failureReason := none
          provider := none } :=
  ⟨by decide, by decide,
    (C1_amended c1wStore 2 9 none none c1wTx (by decide) (by decide)).1⟩

/-! Claim C2. -/

/-- C2: replaying an event that carries an event id is idempotent on both
processing paths.  A second invocation of `handlePaymentSuccess` with the
same payload finds the event id already recorded in the WebhookEventLog,
performs no mutation of the store, and reports already-processed; and for
every stripe event, a second `stripeWebhook` delivery finds the event id in
the ledger prologue, performs no mutation, and responds with the duplicate
acknowledgement. -/
theorem C2_replay_noop (st : Store) (p : SuccessPayload) (now now2 : Nat)
    (e : String) (h : p.eventId = some e) :
    (handlePaymentSuccess (handlePaymentSuccess st p now).2 p now2 =
      (SuccessOutcome.alreadyProcessed, (handlePaymentSuccess st p now).2)) ∧
    (∀ (st2 : Store) (ev : StripeEvent) (now3 now4 : Nat)
        (spe3 spe4 : Option Nat),
      stripeWebhook (stripeWebhook st2 ev now3 spe3).2 ev now4 spe4 =
        (WebhookResponse.duplicate, (stripeWebhook st2 ev now3 spe3).2)) := by
  constructor
  · exact handlePaymentSuccess_of_mem _ p now2 e h
      (handlePaymentSuccess_ledger_mem st p now e h)
  · intro st2 ev now3 now4 spe3 spe4
    exact stripeWebhook_of_mem _ ev now4 spe4
      (stripeWebhook_ledger_mem st2 ev now3 spe3)

/-- Concrete payload for the C2 witness. -/
def c2Payload : SuccessPayload := { eventId := some "e2", transactionId := some 1 }

/-- Concrete store for the C2 witness. -/
def c2Store : Store := { transactions := [{ id := 1, userId := 1 }] }

/-- C2 witness: the replay theorem applies to a concrete store and
payload. -/
theorem C2_replay_noop_witness :
    c2Payload.eventId = some "e2" ∧
    handlePaymentSuccess (handlePaymentSuccess c2Store c2Payload 0).2 c2Payload 1 =
      (SuccessOutcome.alreadyProcessed, (handlePaymentSuccess c2Store c2Payload 0).2) :=
  ⟨rfl, (C2_replay_noop c2Store c2Payload 0 1 "e2" rfl).1⟩

/-! Claim C3. -/

/-- C3 counterexample: the `stripeWebhook` ledger registration is not a
single atomic operation.  Under the interleaving `check A, check B,
insert A, insert B` of two callers racing on the same fresh event id, both
duplicate checks observe a fresh event (`sawDuplicate = false` for both),
caller a proceeds as NEW (pc 2), and caller b neither proceeds nor
short-circuits as DUPLICATE — its create hits the unique index and throws
(pc 3).  So it is not the case that exactly one caller observes NEW and the
other observes DUPLICATE. -/
theorem C3_counterexample :
    (runRace "evt" [true, false, true, false] {}).a.sawDuplicate = false ∧
    (runRace "evt" [true, false, true, false] {}).b.sawDuplicate = false ∧
    (runRace "evt" [true, false, true, false] {}).a.pc = 2 ∧
    (runRace "evt" [true, false, true, false] {}).b.pc = 3 := by
  refine ⟨rfl, rfl, rfl, rfl⟩

/-- C3 (amended): the ledger registration of `handlePaymentSuccess` — one
unique-constrained `WebhookEventLog.create`, a single atomic step — does
give two callers racing on a fresh event id exactly one NEW and one
DUPLICATE, whichever of the two serialization orders the race resolves to;
but the `stripeWebhook` prologue runs `findOne` and `create` as two
separate steps, and some interleavings let both callers pass the duplicate
check, after which one proceeds as NEW and the other's create throws the
duplicate-key error instead of short-circuiting as DUPLICATE. -/
theorem C3_amended (ledger : List String) (e : String) (h : e ∉ ledger) :
    ((registerIfNew ledger e).1 = RegisterResult.new ∧
      (registerIfNew (registerIfNew ledger e).2 e).1 = RegisterResult.duplicate) ∧
    ((runRace "evt" [true, false, true, false] {}).a.pc = 2 ∧
      (runRace "evt" [true, false, true, false] {}).a.sawDuplicate = false ∧
      (runRace "evt" [true, false, true, false] {}).b.pc = 3) := by
  refine ⟨⟨?_, ?_⟩, rfl, rfl, rfl⟩
  · simp [registerIfNew, h]
  · simp [registerIfNew, h]

/-- C3 witness: the amended theorem applies to a concrete fresh event id
and ledger. -/
theorem C3_amended_witness :
    ("ev3" ∉ (["other"] : List String)) ∧
    ((registerIfNew ["other"] "ev3").1 = RegisterResult.new ∧
      (registerIfNew (registerIfNew ["other"] "ev3").2 "ev3").1 =
        RegisterResult.duplicate) :=
  ⟨by decide, (C3_amended ["other"] "ev3" (by decide)).1⟩

/-! Claim C4. -/

/-- Concrete store for the C4 counterexample: one pending song purchase. -/
def c4Store : Store :=
  { transactions := [{ id := 1
                       userId := 1
                       itemType := some "song"
                       itemId := some 5
                       status := TxStatus.pending }]
    users := [{ id := 1 }] }

/-- C4 counterexample: the `handlePaymentSuccess` success path marks the
pending transaction paid without assigning any invoice number, so not every
success path that marks a transaction paid assigns the next invoice
number. -/
theorem C4_counterexample :
    (handlePaymentSuccess c4Store { transactionId := some 1 } 0).2.transactions.map
      (fun t => (t.status, t.invoiceNumber)) = [(TxStatus.paid, none)] := by
  decide

/-- C4 (amended): `markTransactionPaid` assigns the next invoice number
exactly when it transitions a matched non-paid transaction to paid — the
returned and stored transaction carry `invoiceNumber = nextInvoice`, the
collaborator is advanced once, and an already-paid match yields null with
no store change.  The `handlePaymentSuccess` success path, by contrast,
never touches any transaction's invoice number. -/
theorem C4_amended (st : Store) (a : MTPArgs) (g : String) (tx : Transaction)
    (hg : a.gateway = some g)
    (hfind : st.transactions.find? (mtpQuery a) = some tx)
    (hnp : tx.status ≠ TxStatus.paid) :
    (markTransactionPaid st a).1 =
      some { tx with status := TxStatus.paid,
                     invoiceNumber := some st.nextInvoice } ∧
    (markTransactionPaid st a).2.nextInvoice = st.nextInvoice + 1 ∧
    ((markTransactionPaid st a).2.transactions.find? (mtpQuery a)).map
        (fun t => (t.status, t.invoiceNumber)) =
      some (TxStatus.paid, some st.nextInvoice) ∧
    (∀ st2 tx2, st2.transactions.find? (mtpQuery a) = some tx2 →
      tx2.status = TxStatus.paid → markTransactionPaid st2 a = (none, st2)) ∧
    (∀ st2 p2 now2,
      (handlePaymentSuccess st2 p2 now2).2.transactions.map
          Transaction.invoiceNumber =
        st2.transactions.map Transaction.invoiceNumber) := by
  have hgne : ¬ a.gateway = none := by rw [hg]; simp
  have hmain : markTransactionPaid st a =
      (some { tx with status := TxStatus.paid,
                      invoiceNumber := some st.nextInvoice },
        { st with
          transactions := updateFirst st.transactions (mtpQuery a)
            (fun t => { t with status := TxStatus.paid,
                               invoiceNumber := some st.nextInvoice })
          nextInvoice := st.nextInvoice + 1 }) := by
    unfold markTransactionPaid
    rw [if_neg hgne]
    simp only [hfind]
    rw [if_neg hnp]
    rfl
  refine ⟨?_, ?_, ?_, ?_, ?_⟩
  · rw [hmain]
  · rw [hmain]
  · rw [hmain]
    dsimp only
    rw [find?_updateFirst st.transactions (mtpQuery a)
        (fun t => { t with status := TxStatus.paid,
                           invoiceNumber := some st.nextInvoice })
        (fun t ht => ht), hfind]
    rfl
  · intro st2 tx2 h2 hp2
    unfold markTransactionPaid
    rw [if_neg hgne]
    simp only [h2]
    rw [if_pos hp2]
  · intro st2 p2 now2
    exact handlePaymentSuccess_invoiceNumbers st2 p2 now2

/-- Concrete transaction for the C4 witness. -/
def c4wTx : Transaction :=
  { id := 3
    userId := 1
    itemType := some "song"
    itemId := some 5
    status := TxStatus.pending
    paymentIntentId := some "pi_1" }

/-- Concrete store for the C4 witness. -/
def c4wStore : Store := { transactions := [c4wTx] }

/-- Concrete identifier bundle for the C4 witness. -/
def c4wArgs : MTPArgs := { gateway := some "stripe", paymentIntentId := some "pi_1" }

/-- C4 witness: the amended theorem applies to a concrete pending stripe
transaction. -/
theorem C4_amended_witness :
    c4wArgs.gateway = some "stripe" ∧
    c4wStore.transactions.find? (mtpQuery c4wArgs) = some c4wTx ∧
    c4wTx.status ≠ TxStatus.paid ∧
    (markTransactionPaid c4wStore c4wArgs).1 =
      some { c4wTx with status := TxStatus.paid, invoiceNumber := some 1 } :=
  ⟨rfl, by decide, by decide,
    (C4_amended c4wStore c4wArgs "stripe" c4wTx rfl (by decide) (by decide)).1⟩

/-! Facts about the subscription upsert of `updateUserAfterPurchase`. -/

theorem uuap_subscriptions (st : Store) (tx : Transaction) (pid : String)
    (now : Nat) (spe : Option Nat)
    (hty : tx.itemType = some "artist-subscription") :
    (updateUserAfterPurchase st tx pid now spe).2.subscriptions =
      subUpsert st.subscriptions
        (fun s => decide (s.userId = tx.userId ∧ s.artistId = tx.artistId))
        (uuapRefresh tx now spe) (uuapInsert tx now spe) := by
  unfold updateUserAfterPurchase
  dsimp only
  rw [if_pos hty]
  split
  · rfl
  · rfl

theorem uuap_subscriptions_other (st : Store) (tx : Transaction) (pid : String)
    (now : Nat) (spe : Option Nat)
    (hty : ¬ tx.itemType = some "artist-subscription") :
    (updateUserAfterPurchase st tx pid now spe).2.subscriptions =
      st.subscriptions := by
  unfold updateUserAfterPurchase
  dsimp only
  rw [if_neg hty]
  split
  · rfl
  · rfl

/-! Claim C5. -/

/-- Concrete transaction for the C5 counterexample: a pending
artist-subscription purchase on the 3m plan cycle. -/
def c5Tx : Transaction :=
  { id := 2
    userId := 1
    itemType := some "artist-subscription"
    artistId := some 7
    status := TxStatus.pending
    metadata := { type := some "artist-subscription", cycle := some "3m" } }

/-- Concrete store for the C5 counterexample. -/
def c5Store : Store := { transactions := [c5Tx], users := [{ id := 1 }] }

/-- Concrete success payload for the C5 counterexample: stripe, no provider
period data in the raw payload. -/
def c5Payload : SuccessPayload :=
  { transactionId := some 2
    provider := some "stripe"
    metadata := { type := some "artist-subscription" }
    raw := some {} }

/-- C5 counterexample: a successful artist-subscription payment with cycle
3m and no provider period data, processed through the
`handlePaymentSuccess` path, yields validUntil = now + 30 days — the
plan-cycle step of the claimed priority order does not exist on this path,
so the result is not now + 90 days. -/
theorem C5_counterexample :
    (handlePaymentSuccess c5Store c5Payload 0).2.subscriptions.map
      (fun s => (s.validUntil, s.status)) = [(2592000000, "active")] ∧
    (2592000000 : Nat) ≠ 0 + 90 * 24 * 60 * 60 * 1000 := by
  constructor
  · decide
  · decide

/-- C5 (amended): the claimed priority order holds on the
`updateUserAfterPurchase` path: the Stripe-supplied period end wins when
the transaction has a stripeSubscriptionId and the lookup returns a period;
otherwise validUntil is now plus the plan-cycle duration, with cycles
1m, 3m, 6m mapping to 30, 90, 180 days and everything else defaulting to
30 days.  In particular an artist-subscription transaction with cycle 3m
and no provider period data ends with a subscription record at
validUntil = now + 90 days and status active.  The `handlePaymentSuccess`
path, by contrast, has no plan-cycle step (its result there is the 30-day
default shown in the counterexample). -/
theorem C5_amended (st : Store) (tx : Transaction) (pid : String) (now : Nat)
    (spe : Option Nat)
    (hty : tx.itemType = some "artist-subscription")
    (hcy : tx.metadata.cycle = some "3m")
    (hns : tx.stripeSubscriptionId = none) :
    ((updateUserAfterPurchase st tx pid now spe).2.subscriptions.find?
        (fun s => decide (s.userId = tx.userId ∧ s.artistId = tx.artistId))).map
        (fun s => (s.validUntil, s.status)) =
      some (now + 90 * 24 * 60 * 60 * 1000, "active") ∧
    (∀ tx2 now2 pe, tx2.stripeSubscriptionId ≠ none →
      uuapValidUntil tx2 now2 (some pe) = pe * 1000) ∧
    (∀ tx2 now2 spe2, tx2.stripeSubscriptionId = none →
      uuapValidUntil tx2 now2 spe2 =
        now2 + subscriptionDuration tx2.metadata.cycle * 24 * 60 * 60 * 1000) ∧
    subscriptionDuration (some "1m") = 30 ∧
    subscriptionDuration (some "3m") = 90 ∧
    subscriptionDuration (some "6m") = 180 ∧
    subscriptionDuration none = 30 := by
  have hval : uuapValidUntil tx now spe = now + 90 * 24 * 60 * 60 * 1000 := by
    unfold uuapValidUntil
    rw [hns, hcy]
    rfl
  refine ⟨?_, ?_, ?_, rfl, rfl, rfl, rfl⟩
  · rw [uuap_subscriptions st tx pid now spe hty,
      subUpsert_find? st.subscriptions
        (fun s => decide (s.userId = tx.userId ∧ s.artistId = tx.artistId))
        (uuapRefresh tx now spe) (uuapInsert tx now spe)
        (fun s hs => hs) (decide_eq_true ⟨rfl, rfl⟩)]
    cases hf : st.subscriptions.find?
        (fun s => decide (s.userId = tx.userId ∧ s.artistId = tx.artistId)) with
    | none => simp [uuapInsert, hval]
    | some s0 => simp [uuapRefresh, hval]
  · intro tx2 now2 pe h2
    unfold uuapValidUntil
    cases h3 : tx2.stripeSubscriptionId with
    | none => exact absurd h3 h2
    | some s => rfl
  · intro tx2 now2 spe2 h2
    unfold uuapValidUntil
    rw [h2]

/-- Concrete transaction for the C5 witness. -/
def c5wTx : Transaction :=
  { id := 4
    userId := 2
    itemType := some "artist-subscription"
    artistId := some 9
    metadata := { cycle := some "3m" } }

/-- Concrete store for the C5 witness. -/
def c5wStore : Store := { users := [{ id := 2 }] }

/-- C5 witness: the amended theorem applies to a concrete 3m-cycle
subscription transaction without provider period data. -/
theorem C5_amended_witness :
    c5wTx.itemType = some "artist-subscription" ∧
    c5wTx.metadata.cycle = some "3m" ∧
    c5wTx.stripeSubscriptionId = none ∧
    ((updateUserAfterPurchase c5wStore c5wTx "pay" 100 none).2.subscriptions.find?
        (fun s => decide (s.userId = c5wTx.userId ∧ s.artistId = c5wTx.artistId))).map
        (fun s => (s.validUntil, s.status)) =
      some (100 + 90 * 24 * 60 * 60 * 1000, "active") :=
  ⟨rfl, rfl, rfl,
    (C5_amended c5wStore c5wTx "pay" 100 none rfl rfl rfl).1⟩

/-! Claim C6. -/

/-- The (user, artist) key-uniqueness invariant of the Subscription
collection. -/
def SubsUnique (subs : List SubscriptionRecord) : Prop :=
  subs.Pairwise (fun s1 s2 => ¬(s1.userId = s2.userId ∧ s1.artistId = s2.artistId))

theorem subUpsert_unique (subs : List SubscriptionRecord) (uid : Nat)
    (aid : Option Nat) (f : SubscriptionRecord → SubscriptionRecord)
    (mk : SubscriptionRecord)
    (hf : ∀ s, (f s).userId = s.userId ∧ (f s).artistId = s.artistId)
    (hmk : mk.userId = uid ∧ mk.artistId = aid)
    (h : SubsUnique subs) :
    SubsUnique (subUpsert subs
      (fun s => decide (s.userId = uid ∧ s.artistId = aid)) f mk) := by
  unfold subUpsert
  cases hany : subs.any (fun s => decide (s.userId = uid ∧ s.artistId = aid)) with
  | true =>
    rw [if_pos rfl]
    refine pairwise_updateFirst _ f ?_ ?_ h
    · intro x y hxy hc
      exact hxy ⟨hc.1.trans (hf y).1, hc.2.trans (hf y).2⟩
    · intro x y hxy hc
      exact hxy ⟨((hf x).1.symm).trans hc.1, ((hf x).2.symm).trans hc.2⟩
  | false =>
    rw [if_neg (by simp)]
    have hall : ∀ y ∈ subs, ¬(y.userId = uid ∧ y.artistId = aid) := by
      intro y hy hc
      have h2 : subs.any (fun s => decide (s.userId = uid ∧ s.artistId = aid)) = true :=
        List.any_eq_true.mpr ⟨y, hy, decide_eq_true hc⟩
      rw [hany] at h2
      exact Bool.false_ne_true h2
    rw [SubsUnique, List.pairwise_append]
    refine ⟨h, List.pairwise_singleton _ _, ?_⟩
    intro x hx y hy
    have hymk : y = mk := by simpa using hy
    subst hymk
    intro hc
    exact hall x hx ⟨hc.1.trans hmk.1, hc.2.trans hmk.2⟩

theorem uuap_subsUnique (st : Store) (tx : Transaction) (pid : String)
    (now : Nat) (spe : Option Nat) (h : SubsUnique st.subscriptions) :
    SubsUnique (updateUserAfterPurchase st tx pid now spe).2.subscriptions := by
  by_cases hty : tx.itemType = some "artist-subscription"
  · rw [uuap_subscriptions st tx pid now spe hty]
    exact subUpsert_unique st.subscriptions tx.userId tx.artistId _ _
      (fun s => ⟨rfl, rfl⟩) ⟨rfl, rfl⟩ h
  · rw [uuap_subscriptions_other st tx pid now spe hty]
    exact h

theorem handleSuccessBody_subsUnique (st : Store) (p : SuccessPayload)
    (now : Nat) (h : SubsUnique st.subscriptions) :
    SubsUnique (handleSuccessBody st p now).2.subscriptions := by
  unfold handleSuccessBody
  split
  · exact h
  next txId heq =>
    split
    · exact h
    next tx0 htx0 =>
      dsimp only
      split
      · split
        · exact h
        next artistId hch =>
          exact subUpsert_unique st.subscriptions tx0.userId (some artistId)
            _ _ (fun s => ⟨rfl, rfl⟩) ⟨rfl, rfl⟩ h
      · exact h

theorem handlePaymentSuccess_subsUnique (st : Store) (p : SuccessPayload)
    (now : Nat) (h : SubsUnique st.subscriptions) :
    SubsUnique (handlePaymentSuccess st p now).2.subscriptions := by
  unfold handlePaymentSuccess
  split
  next e heq =>
    split
    · exact h
    · exact handleSuccessBody_subsUnique _ p now h
  next heq => exact handleSuccessBody_subsUnique st p now h

theorem foldl_subsUnique (ops : List ReconOp) (st : Store)
    (h : SubsUnique st.subscriptions) :
    SubsUnique ((ops.foldl applyOp st).subscriptions) := by
  induction ops generalizing st with
  | nil => exact h
  | cons op rest ih =>
    cases op with
    | grant tx pid now spe => exact ih _ (uuap_subsUnique st tx pid now spe h)
    | success p now => exact ih _ (handlePaymentSuccess_subsUnique st p now h)

/-- C6: the Subscription collection keeps at most one record per
(user, artist): any interleaving of the two modelled subscription writers —
Entitlement-Updater grants (`updateUserAfterPurchase`) and success-handler
invocations (`handlePaymentSuccess`, whose body performs the part_000
upsert) — preserves the key-uniqueness invariant; the shared upsert
operation never adds a row when a record with the key exists; and when a
record for the transaction's (user, artist) key already exists, an
artist-subscription grant leaves the number of rows unchanged and refreshes
validUntil, gateway, external subscription id, linking transaction id and
status on the existing record instead of inserting a second row. -/
theorem C6_unique_upsert (st : Store) (ops : List ReconOp)
    (h : SubsUnique st.subscriptions) :
    SubsUnique ((ops.foldl applyOp st).subscriptions) ∧
    (∀ subs p f mk, subs.any p = true →
      (subUpsert subs p f mk).length = subs.length) ∧
    (∀ st2 tx pid now spe,
      tx.itemType = some "artist-subscription" →
      st2.subscriptions.any
        (fun s => decide (s.userId = tx.userId ∧ s.artistId = tx.artistId)) = true →
      ((updateUserAfterPurchase st2 tx pid now spe).2.subscriptions.length =
          st2.subscriptions.length ∧
        ((updateUserAfterPurchase st2 tx pid now spe).2.subscriptions.find?
            (fun s => decide (s.userId = tx.userId ∧ s.artistId = tx.artistId))).map
            (fun s => (s.validUntil, s.gateway, s.externalSubscriptionId,
              s.transactionId, s.status)) =
          some (uuapValidUntil tx now spe, tx.gateway,
            some (fallbackExternalId tx), some tx.id, "active"))) := by
  refine ⟨foldl_subsUnique ops st h, ?_, ?_⟩
  · intro subs p f mk hany
    unfold subUpsert
    rw [if_pos hany]
    exact length_updateFirst _ _ _
  intro st2 tx pid now spe hty hany
  constructor
  · rw [uuap_subscriptions st2 tx pid now spe hty]
    unfold subUpsert
    rw [if_pos hany]
    exact length_updateFirst _ _ _
  · rw [uuap_subscriptions st2 tx pid now spe hty,
      subUpsert_find? st2.subscriptions
        (fun s => decide (s.userId = tx.userId ∧ s.artistId = tx.artistId))
        (uuapRefresh tx now spe) (uuapInsert tx now spe)
        (fun s hs => hs) (decide_eq_true ⟨rfl, rfl⟩)]
    have hsome : (st2.subscriptions.find?
        (fun s => decide (s.userId = tx.userId ∧ s.artistId = tx.artistId))).isSome := by
      rw [List.find?_isSome]
      obtain ⟨s1, hs1, hps1⟩ := List.any_eq_true.mp hany
      exact ⟨s1, hs1, hps1⟩
    obtain ⟨s0, hs0⟩ := Option.isSome_iff_exists.mp hsome
    rw [hs0]
    rfl

/-- C6 witness: the theorem applies to the empty store with no
operations. -/
theorem C6_unique_upsert_witness :
    SubsUnique (Store.subscriptions {}) ∧
    SubsUnique ((([] : List ReconOp).foldl applyOp {}).subscriptions) :=
  ⟨List.Pairwise.nil, (C6_unique_upsert {} [] List.Pairwise.nil).1⟩

/-! Claim C7. -/

/-- The owned-item sets of every user are true sets (no duplicate
membership). -/
def EntitlementsNodup (st : Store) : Prop :=
  ∀ u ∈ st.users, u.purchasedSongs.Nodup ∧ u.purchasedAlbums.Nodup

theorem uuap_entitlementsNodup (st : Store) (tx : Transaction) (pid : String)
    (now : Nat) (spe : Option Nat) (h : EntitlementsNodup st) :
    EntitlementsNodup (updateUserAfterPurchase st tx pid now spe).2 := by
  unfold updateUserAfterPurchase
  dsimp only
  by_cases hmem : st.users.any (fun u => decide (u.id = tx.userId)) = true
  · rw [if_pos hmem]
    intro u hu
    rcases mem_updateFirst hu with h1 | ⟨z, hz, rfl⟩
    · exact h u h1
    · by_cases hsong : tx.itemType = some "song"
      · rw [if_pos hsong]
        exact ⟨addToSet_nodup tx.itemId (h z hz).1, (h z hz).2⟩
      · rw [if_neg hsong]
        by_cases halbum : tx.itemType = some "album"
        · rw [if_pos halbum]
          exact ⟨(h z hz).1, addToSet_nodup tx.itemId (h z hz).2⟩
        · rw [if_neg halbum]
          exact ⟨(h z hz).1, (h z hz).2⟩
  · rw [if_neg hmem]
    exact h

theorem handleSuccessBody_entitlementsNodup (st : Store) (p : SuccessPayload)
    (now : Nat) (h : EntitlementsNodup st) :
    EntitlementsNodup (handleSuccessBody st p now).2 := by
  unfold handleSuccessBody
  split
  · exact h
  next txId heq =>
    split
    · exact h
    next tx0 htx0 =>
      dsimp only
      intro u hu
      rcases mem_updateFirst hu with h1 | ⟨z, hz, rfl⟩
      · exact h u h1
      · refine ⟨?_, ?_⟩
        · split
          · exact addToSet_nodup _ (h z hz).1
          · split
            · exact (h z hz).1
            · exact (h z hz).1
        · split
          · exact (h z hz).2
          · split
            · exact addToSet_nodup _ (h z hz).2
            · exact (h z hz).2

theorem handlePaymentSuccess_entitlementsNodup (st : Store)
    (p : SuccessPayload) (now : Nat) (h : EntitlementsNodup st) :
    EntitlementsNodup (handlePaymentSuccess st p now).2 := by
  unfold handlePaymentSuccess
  split
  next e heq =>
    split
    · exact h
    · exact handleSuccessBody_entitlementsNodup _ p now h
  next heq => exact handleSuccessBody_entitlementsNodup st p now h

theorem foldl_entitlementsNodup (ops : List ReconOp) (st : Store)
    (h : EntitlementsNodup st) :
    EntitlementsNodup (ops.foldl applyOp st) := by
  induction ops generalizing st with
  | nil => exact h
  | cons op rest ih =>
    cases op with
    | grant tx pid now spe =>
      exact ih _ (uuap_entitlementsNodup st tx pid now spe h)
    | success p now =>
      exact ih _ (handlePaymentSuccess_entitlementsNodup st p now h)

/-- C7: under any interleaving of the two modelled grant writers —
Entitlement-Updater grants (`updateUserAfterPurchase`) and success-handler
invocations (`handlePaymentSuccess`, whose body performs the part_000
`$addToSet` block) — the owned-item sets keep set semantics (no duplicate
membership), and both writers route grants exclusively: a song grant never
touches purchasedAlbums, an album grant never touches purchasedSongs, and
an artist-subscription or unknown item kind touches neither owned set on
any user; for the success-handler block the routing condition is its
metadata-or-transaction test. -/
theorem C7_entitlement_sets (st : Store) (ops : List ReconOp)
    (h : EntitlementsNodup st) :
    EntitlementsNodup (ops.foldl applyOp st) ∧
    (∀ st2 tx pid now spe,
      (tx.itemType = some "song" →
        (updateUserAfterPurchase st2 tx pid now spe).2.users.map
            User.purchasedAlbums =
          st2.users.map User.purchasedAlbums) ∧
      (tx.itemType = some "album" →
        (updateUserAfterPurchase st2 tx pid now spe).2.users.map
            User.purchasedSongs =
          st2.users.map User.purchasedSongs) ∧
      (tx.itemType ≠ some "song" → tx.itemType ≠ some "album" →
        (updateUserAfterPurchase st2 tx pid now spe).2.users.map
            User.purchasedSongs =
          st2.users.map User.purchasedSongs ∧
        (updateUserAfterPurchase st2 tx pid now spe).2.users.map
            User.purchasedAlbums =
          st2.users.map User.purchasedAlbums)) ∧
    (∀ st3 p now3 txId tx0,
      p.transactionId = some txId →
      st3.transactions.find?
          (fun t => decide (t.id = txId ∧ t.status ≠ TxStatus.paid)) =
        some tx0 →
      ((p.metadata.type = some "song" ∨ tx0.itemType = some "song") →
        (handleSuccessBody st3 p now3).2.users.map User.purchasedAlbums =
          st3.users.map User.purchasedAlbums) ∧
      (¬(p.metadata.type = some "song" ∨ tx0.itemType = some "song") →
        (p.metadata.type = some "album" ∨ tx0.itemType = some "album") →
        (handleSuccessBody st3 p now3).2.users.map User.purchasedSongs =
          st3.users.map User.purchasedSongs) ∧
      (¬(p.metadata.type = some "song" ∨ tx0.itemType = some "song") →
        ¬(p.metadata.type = some "album" ∨ tx0.itemType = some "album") →
        (handleSuccessBody st3 p now3).2.users.map User.purchasedSongs =
          st3.users.map User.purchasedSongs ∧
        (handleSuccessBody st3 p now3).2.users.map User.purchasedAlbums =
          st3.users.map User.purchasedAlbums)) := by
  refine ⟨foldl_entitlementsNodup ops st h, ?_, ?_⟩
  case refine_2 =>
    intro st3 p now3 txId tx0 htx hfind
    refine ⟨?_, ?_, ?_⟩
    · intro hsong
      unfold handleSuccessBody
      rw [htx]
      dsimp only
      simp only [hfind]
      refine map_updateFirst User.purchasedAlbums _ _ _ (fun u => ?_)
      rw [if_pos hsong]
    · intro hsong halbum
      unfold handleSuccessBody
      rw [htx]
      dsimp only
      simp only [hfind]
      refine map_updateFirst User.purchasedSongs _ _ _ (fun u => ?_)
      rw [if_neg hsong, if_pos halbum]
    · intro hsong halbum
      constructor
      · unfold handleSuccessBody
        rw [htx]
        dsimp only
        simp only [hfind]
        refine map_updateFirst User.purchasedSongs _ _ _ (fun u => ?_)
        rw [if_neg hsong, if_neg halbum]
      · unfold handleSuccessBody
        rw [htx]
        dsimp only
        simp only [hfind]
        refine map_updateFirst User.purchasedAlbums _ _ _ (fun u => ?_)
        rw [if_neg hsong, if_neg halbum]
  intro st2 tx pid now spe
  refine ⟨?_, ?_, ?_⟩
  · intro hsong
    unfold updateUserAfterPurchase
    dsimp only
    by_cases hmem : st2.users.any (fun u => decide (u.id = tx.userId)) = true
    · rw [if_pos hmem]
      refine map_updateFirst User.purchasedAlbums _ _ _ (fun u => ?_)
      rw [if_pos hsong]
    · rw [if_neg hmem]
  · intro halbum
    have hsong : ¬ tx.itemType = some "song" := by
      rw [halbum]; simp
    unfold updateUserAfterPurchase
    dsimp only
    by_cases hmem : st2.users.any (fun u => decide (u.id = tx.userId)) = true
    · rw [if_pos hmem]
      refine map_updateFirst User.purchasedSongs _ _ _ (fun u => ?_)
      rw [if_neg hsong, if_pos halbum]
    · rw [if_neg hmem]
  · intro hsong halbum
    constructor
    · unfold updateUserAfterPurchase
      dsimp only
      by_cases hmem : st2.users.any (fun u => decide (u.id = tx.userId)) = true
      · rw [if_pos hmem]
        refine map_updateFirst User.purchasedSongs _ _ _ (fun u => ?_)
        rw [if_neg hsong, if_neg halbum]
        exact rfl
      · rw [if_neg hmem]
    · unfold updateUserAfterPurchase
      dsimp only
      by_cases hmem : st2.users.any (fun u => decide (u.id = tx.userId)) = true
      · rw [if_pos hmem]
        refine map_updateFirst User.purchasedAlbums _ _ _ (fun u => ?_)
        rw [if_neg hsong, if_neg halbum]
        exact rfl
      · rw [if_neg hmem]

/-- C7 witness: the theorem applies to the empty store with no
operations. -/
theorem C7_entitlement_sets_witness :
    EntitlementsNodup ({} : Store) ∧
    EntitlementsNodup (([] : List ReconOp).foldl applyOp {}) :=
  ⟨fun u hu => absurd hu (List.not_mem_nil u),
    (C7_entitlement_sets {} [] (fun u hu => absurd hu (List.not_mem_nil u))).1⟩

/-! Claims C8 and C9. -/

theorem handlePaymentSuccess_missing_tx (st : Store) (p : SuccessPayload)
    (now : Nat) (htx : p.transactionId = none)
    (he : ∀ e, p.eventId = some e → e ∉ st.ledger) :
    handlePaymentSuccess st p now =
      (SuccessOutcome.errMissingTransactionId,
        { st with ledger := st.ledger ++ p.eventId.toList }) := by
  have hbody : ∀ st2 : Store,
      handleSuccessBody st2 p now = (.errMissingTransactionId, st2) := by
    intro st2
    unfold handleSuccessBody
    rw [htx]
  unfold handlePaymentSuccess
  cases hev : p.eventId with
  | none =>
    rw [hbody st]
    simp
  | some e =>
    dsimp only
    rw [if_neg (he e hev), hbody]
    rfl

/-- Concrete empty store for the C8 counterexample. -/
def c8Store : Store := {}

/-- C8 counterexample: calling the success handler with an event id but no
transactionId throws the missing-transactionId error, yet the idempotency
ledger has been durably mutated — the event is now recorded as seen, so the
handler did not leave every piece of durable state untouched. -/
theorem C8_counterexample :
    (handlePaymentSuccess c8Store { eventId := some "evt8" } 0).1 =
      SuccessOutcome.errMissingTransactionId ∧
    (handlePaymentSuccess c8Store { eventId := some "evt8" } 0).2.ledger =
      ["evt8"] ∧
    (handlePaymentSuccess c8Store { eventId := some "evt8" } 0).2.ledger ≠
      c8Store.ledger := by
  refine ⟨rfl, rfl, ?_⟩
  decide

/-- C8 (amended): with no transactionId (and a fresh event id, if any),
`handlePaymentSuccess` throws the missing-transactionId error and leaves
transactions, users and subscriptions untouched — but the idempotency
ledger write is not rolled back: when the payload carries an event id the
ledger gains that id, because the WebhookEventLog insert runs before, and
outside, the aborted session. -/
theorem C8_amended (st : Store) (p : SuccessPayload) (now : Nat)
    (htx : p.transactionId = none)
    (he : ∀ e, p.eventId = some e → e ∉ st.ledger) :
    (handlePaymentSuccess st p now).1 =
      SuccessOutcome.errMissingTransactionId ∧
    (handlePaymentSuccess st p now).2.transactions = st.transactions ∧
    (handlePaymentSuccess st p now).2.users = st.users ∧
    (handlePaymentSuccess st p now).2.subscriptions = st.subscriptions ∧
    (handlePaymentSuccess st p now).2.ledger =
      st.ledger ++ p.eventId.toList := by
  rw [handlePaymentSuccess_missing_tx st p now htx he]
  exact ⟨rfl, rfl, rfl, rfl, rfl⟩

/-- Concrete payload for the C8 witness. -/
def c8wPayload : SuccessPayload := { eventId := some "ev8w" }

/-- Concrete store for the C8 witness. -/
def c8wStore : Store := { ledger := ["other-event"] }

/-- C8 witness: the amended theorem applies to a concrete payload without
transactionId. -/
theorem C8_amended_witness :
    c8wPayload.transactionId = none ∧
    (∀ e, c8wPayload.eventId = some e → e ∉ c8wStore.ledger) ∧
    (handlePaymentSuccess c8wStore c8wPayload 0).1 =
      SuccessOutcome.errMissingTransactionId :=
  ⟨rfl, by decide,
    (C8_amended c8wStore c8wPayload 0 rfl (by decide)).1⟩

/-- Concrete pending transaction for the C9 counterexample. -/
def c9Tx : Transaction := { id := 3, userId := 1, status := TxStatus.pending }

/-- Concrete store for the C9 counterexample. -/
def c9Store : Store := { transactions := [c9Tx] }

/-- C9 counterexample: the ledger write and the business effects are two
separate commits.  An event whose effects fail (missing transactionId
aborts the session) still leaves its event id recorded in the ledger and
the pending transaction untouched; a later correct redelivery of the same
event id is then swallowed as already-processed, so the system is in
exactly the state the claim rules out: ledger says seen, effects never
landed. -/
theorem C9_counterexample :
    (handlePaymentSuccess c9Store { eventId := some "evt9" } 0).1 =
      SuccessOutcome.errMissingTransactionId ∧
    (handlePaymentSuccess c9Store { eventId := some "evt9" } 0).2.ledger =
      ["evt9"] ∧
    (handlePaymentSuccess c9Store { eventId := some "evt9" } 0).2.transactions =
      [c9Tx] ∧
    (handlePaymentSuccess
        (handlePaymentSuccess c9Store { eventId := some "evt9" } 0).2
        { eventId := some "evt9", transactionId := some 3 } 1).1 =
      SuccessOutcome.alreadyProcessed := by
  refine ⟨rfl, rfl, rfl, rfl⟩

/-- C9 (amended): the idempotency-ledger write commits before and outside
the atomic scope of the business effects, so they are two commits, not
one: when the effects fail to commit (the missing-transactionId throw
aborts the session), the ledger still records the event as seen while
transactions, users and subscriptions are unchanged, and any redelivery
carrying the same event id short-circuits as already-processed even though
no effects ever landed. -/
theorem C9_amended (st : Store) (p p2 : SuccessPayload) (now now2 : Nat)
    (e : String)
    (he : p.eventId = some e) (hnew : e ∉ st.ledger)
    (htx : p.transactionId = none) (he2 : p2.eventId = some e) :
    e ∈ (handlePaymentSuccess st p now).2.ledger ∧
    (handlePaymentSuccess st p now).1 =
      SuccessOutcome.errMissingTransactionId ∧
    (handlePaymentSuccess st p now).2.transactions = st.transactions ∧
    (handlePaymentSuccess st p now).2.users = st.users ∧
    (handlePaymentSuccess st p now).2.subscriptions = st.subscriptions ∧
    handlePaymentSuccess (handlePaymentSuccess st p now).2 p2 now2 =
      (SuccessOutcome.alreadyProcessed, (handlePaymentSuccess st p now).2) := by
  have hsingle : ∀ e2, p.eventId = some e2 → e2 ∉ st.ledger := by
    intro e2 he2'
    rw [he] at he2'
    injection he2' with h3
    rw [← h3]
    exact hnew
  have hmain := handlePaymentSuccess_missing_tx st p now htx hsingle
  refine ⟨handlePaymentSuccess_ledger_mem st p now e he, ?_, ?_, ?_, ?_, ?_⟩
  · rw [hmain]
  · rw [hmain]
  · rw [hmain]
  · rw [hmain]
  · exact handlePaymentSuccess_of_mem _ p2 now2 e he2
      (handlePaymentSuccess_ledger_mem st p now e he)

/-- Concrete payload for the C9 witness. -/
def c9wPayload : SuccessPayload := { eventId := some "ev9w" }

/-- Concrete second-delivery payload for the C9 witness. -/
def c9wPayload2 : SuccessPayload :=
  { eventId := some "ev9w", transactionId := some 1 }

/-- C9 witness: the amended theorem applies to a concrete first delivery
without transactionId and a concrete redelivery. -/
theorem C9_amended_witness :
    c9wPayload.eventId = some "ev9w" ∧
    ("ev9w" ∉ (({} : Store)).ledger) ∧
    c9wPayload.transactionId = none ∧
    c9wPayload2.eventId = some "ev9w" ∧
    "ev9w" ∈ (handlePaymentSuccess {} c9wPayload 0).2.ledger :=
  ⟨rfl, by decide, rfl, rfl,
    (C9_amended {} c9wPayload c9wPayload2 0 1 "ev9w" rfl (by decide) rfl rfl).1⟩

/-! Claim C10. -/

/-- C10: for an artist-subscription transaction whose owning user does not
exist, `updateUserAfterPurchase` reports failure (false) and leaves the
user collection untouched, but the Subscription upsert has already been
applied before the user-existence check: the subscriptions collection is
exactly the upserted one and contains a record for the transaction's
(user, artist) key.  The grant is not atomic with respect to the user
check. -/
theorem C10_nonatomic_grant (st : Store) (tx : Transaction) (pid : String)
    (now : Nat) (spe : Option Nat)
    (hty : tx.itemType = some "artist-subscription")
    (hnouser : st.users.any (fun u => decide (u.id = tx.userId)) = false) :
    (updateUserAfterPurchase st tx pid now spe).1 = false ∧
    (updateUserAfterPurchase st tx pid now spe).2.users = st.users ∧
    (updateUserAfterPurchase st tx pid now spe).2.subscriptions =
      subUpsert st.subscriptions
        (fun s => decide (s.userId = tx.userId ∧ s.artistId = tx.artistId))
        (uuapRefresh tx now spe) (uuapInsert tx now spe) ∧
    ((updateUserAfterPurchase st tx pid now spe).2.subscriptions.find?
        (fun s => decide (s.userId = tx.userId ∧ s.artistId = tx.artistId))).isSome =
      true := by
  have hne : ¬ st.users.any (fun u => decide (u.id = tx.userId)) = true := by
    rw [hnouser]
    simp
  refine ⟨?_, ?_, uuap_subscriptions st tx pid now spe hty, ?_⟩
  · unfold updateUserAfterPurchase
    dsimp only
    rw [if_neg hne]
  · unfold updateUserAfterPurchase
    dsimp only
    rw [if_neg hne]
  · rw [uuap_subscriptions st tx pid now spe hty,
      subUpsert_find? st.subscriptions
        (fun s => decide (s.userId = tx.userId ∧ s.artistId = tx.artistId))
        (uuapRefresh tx now spe) (uuapInsert tx now spe)
        (fun s hs => hs) (decide_eq_true ⟨rfl, rfl⟩)]
    rfl

/-- Concrete transaction for the C10 witness. -/
def c10wTx : Transaction :=
  { id := 6
    userId := 42
    itemType := some "artist-subscription"
    artistId := some 8 }

/-- Concrete store for the C10 witness: no user with id 42 exists. -/
def c10wStore : Store := { users := [{ id := 1 }] }

/-- C10 witness: the theorem applies to a concrete subscription transaction
whose user is absent. -/
theorem C10_nonatomic_grant_witness :
    c10wTx.itemType = some "artist-subscription" ∧
    c10wStore.users.any (fun u => decide (u.id = c10wTx.userId)) = false ∧
    (updateUserAfterPurchase c10wStore c10wTx "pay" 0 none).1 = false :=
  ⟨rfl, by decide,
    (C10_nonatomic_grant c10wStore c10wTx "pay" 0 none rfl (by decide)).1⟩
